import Mathlib

/-!
Verification development for the ollama-ticket-summary repository.

The repository has two pipelines:
* `jira_fetcher.py` — a paginated fetch loop (`JiraTicketFetcher.fetch_tickets`)
  that accumulates pages of tickets from a search API and saves them to a JSON
  snapshot (`save_tickets_to_json`);
* `ticket_analyzer.py` — loads the snapshot (`load_ticket_data`), projects each
  ticket to a bounded text block (`prepare_ticket_data_for_analysis`) and sends
  the concatenation, prefixed by a fixed instruction template, to a local
  text-completion service (`analyze_with_ollama`).

Below, each Python routine is embedded as a total Lean function over an explicit
record model of the JSON ticket shape.  Network requests are modelled by a page
function `Nat → Option (List Ticket × Nat)`: `none` is a failed request
(non-success HTTP status, transport error, or malformed payload — the code
treats all three the same way), `some (batch, total)` is a successful response
carrying a page and the declared total.  The pagination `while True:` loop is
embedded with an explicit fuel argument; all theorems instantiate the fuel with
a value large enough that it is never exhausted.
-/

/-- Python code-point slice `s[:n]`: the first `n` characters of a string
(Python slices `str` by code points, exactly the elements of `String.data`). -/
def pySlice (s : String) (n : Nat) : String :=
  ⟨s.data.take n⟩

/-- Python `l[-n:]`: the last `n` elements of a list (all of them if it is
shorter). -/
def lastN (n : Nat) (l : List α) : List α :=
  l.drop (l.length - n)

/-- A JSON object carrying a display name, e.g. the value of `assignee`,
`reporter` or a comment/history `author`; the `displayName` key may be absent. -/
structure Person where
  displayName : Option String
  deriving DecidableEq

/-- A JSON object carrying a name, e.g. the value of `status`, `priority` or
`issuetype`; the `name` key may be absent. -/
structure Named where
  name : Option String
  deriving DecidableEq

/-- One element of `fields.comment.comments`. -/
structure Comment where
  author : Option Person
  body : String
  deriving DecidableEq

/-- One element of a history entry's `items` list. -/
structure HistoryItem where
  field : String
  fromString : String
  toString : String
  deriving DecidableEq

/-- One element of `changelog.histories`. -/
structure HistoryEntry where
  author : Option Person
  items : List HistoryItem
  deriving DecidableEq

/-- The value of the `comment` field: an object with a `comments` list.
A missing/empty `comment` object and a missing `comments` key are collapsed
into `none` at the `Fields` level: the code skips the comment loop in all of
those cases. -/
structure CommentField where
  comments : List Comment
  deriving DecidableEq

/-- The value of the top-level `changelog` key: an object with a `histories`
list.  As with comments, missing/empty objects are collapsed into `none`. -/
structure Changelog where
  histories : List HistoryEntry
  deriving DecidableEq

/-- The `fields` mapping of one ticket (§3 of the spec): optional members are
`Option`s, which covers both an absent key and an explicit JSON `null` (the code
treats both identically via `dict.get` and truthiness checks). -/
structure Fields where
  summary : Option String
  description : Option String
  status : Option Named
  priority : Option Named
  issuetype : Option Named
  assignee : Option Person
  reporter : Option Person
  created : Option String
  updated : Option String
  comment : Option CommentField
  deriving DecidableEq

/-- One ticket record: a key, a `fields` mapping, and an optional top-level
`changelog`. -/
structure Ticket where
  key : String
  fields : Fields
  changelog : Option Changelog
  deriving DecidableEq

/-! ## Ticket projection (`ticket_analyzer.py`, `prepare_ticket_data_for_analysis`) -/

/-- `p.get('displayName', default) if p else default` — also the behaviour of
`x.get('author', {}).get('displayName', default)`. -/
def optDisplayName (p : Option Person) (default : String) : String :=
  match p with
  | some q => q.displayName.getD default
  | none => default

/-- `fields.get(k, {}).get('name', 'Unknown')` for `status`/`priority`/`issuetype`. -/
def namedOrUnknown (n : Option Named) : String :=
  match n with
  | some m => m.name.getD "Unknown"
  | none => "Unknown"

/-- `if description and len(description) > 300: description = description[:300] + "..."`
(`ticket_analyzer.py` lines 100–101). -/
def truncate_description (description : String) : String :=
  if description ≠ "" ∧ 300 < description.length then
    pySlice description 300 ++ "..."
  else
    description

/-- `if len(body) > 150: body = body[:150] + "..."` (lines 110–111). -/
def truncate_body (body : String) : String :=
  if 150 < body.length then pySlice body 150 ++ "..." else body

/-- The line appended for one comment: `f"  {author}: {body}"` (line 112). -/
def comment_line (c : Comment) : String :=
  "  " ++ optDisplayName c.author "Unknown" ++ ": " ++ truncate_body c.body

/-- The comment loop (lines 104–112): last 3 comments of
`fields.get('comment', {})['comments']`, one line each. -/
def comment_lines (f : Fields) : List String :=
  match f.comment with
  | some cf => (lastN 3 cf.comments).map comment_line
  | none => []

/-- `'\n'.join(comments) if comments else 'No comments'` (line 114). -/
def comments_text (f : Fields) : String :=
  if (comment_lines f).isEmpty then "No comments"
  else String.intercalate "\n" (comment_lines f)

/-- The inner item loop of the history loop (lines 121–126): for one kept
history entry, one line per field-change item. -/
def history_entry_lines (h : HistoryEntry) : List String :=
  h.items.map fun it =>
    "  " ++ optDisplayName h.author "Unknown" ++ ": " ++ it.field ++
      " changed from '" ++ it.fromString ++ "' to '" ++ HistoryItem.toString it ++ "'"

/-- The history loop (lines 117–126): last 2 entries of
`ticket.get('changelog', {})['histories']`, flattened over their items. -/
def history_lines (t : Ticket) : List String :=
  match t.changelog with
  | some cl => (lastN 2 cl.histories).flatMap history_entry_lines
  | none => []

/-- `'\n'.join(history_items) if history_items else 'No recent changes'` (line 128). -/
def history_text (t : Ticket) : String :=
  if (history_lines t).isEmpty then "No recent changes"
  else String.intercalate "\n" (history_lines t)

/-- `assignee.get('displayName', 'Unassigned') if assignee else 'Unassigned'` (line 91). -/
def assignee_name (f : Fields) : String :=
  optDisplayName f.assignee "Unassigned"

/-- `reporter.get('displayName', 'Unknown') if reporter else 'Unknown'` (line 94). -/
def reporter_name (f : Fields) : String :=
  optDisplayName f.reporter "Unknown"

/-- The `Description:` template value: the truncated description, with
`{description or 'No description'}` substituting the placeholder for a missing,
null or empty description (lines 85, 100–101, 140). -/
def rendered_description (f : Fields) : String :=
  if truncate_description (f.description.getD "") = "" then "No description"
  else truncate_description (f.description.getD "")

/-- The per-ticket f-string template (lines 130–146): note the leading newline
after the opening `"""` and the trailing `---` separator line. -/
def ticket_summary_block (t : Ticket) : String :=
  "\nTicket: " ++ t.key ++
  "\nTitle: " ++ t.fields.summary.getD "" ++
  "\nType: " ++ namedOrUnknown t.fields.issuetype ++
  "\nStatus: " ++ namedOrUnknown t.fields.status ++
  "\nPriority: " ++ namedOrUnknown t.fields.priority ++
  "\nAssignee: " ++ assignee_name t.fields ++
  "\nReporter: " ++ reporter_name t.fields ++
  "\nCreated: " ++ pySlice (t.fields.created.getD "") 10 ++
  "\nUpdated: " ++ pySlice (t.fields.updated.getD "") 10 ++
  "\nDescription: " ++ rendered_description t.fields ++
  "\nRecent Comments:\n" ++ comments_text t.fields ++
  "\nRecent History:\n" ++ history_text t ++
  "\n---\n"

/-- `prepare_ticket_data_for_analysis` (lines 75–149): one block per ticket,
joined with newlines. -/
def prepare_ticket_data_for_analysis (tickets : List Ticket) : String :=
  String.intercalate "\n" (tickets.map ticket_summary_block)

/-! ## Report generation (`ticket_analyzer.py`, `analyze_with_ollama` and `quick_summary`) -/

/-- The `"summary"` entry of the `prompts` dict (lines 154–166), verbatim. -/
def summary_prompt : String :=
  "\nPlease analyze these Jira tickets and provide:\n\n1. **Executive Summary** (2-3 sentences about the overall state)\n2. **Key Statistics** (count by status, priority, type)\n3. **Main Themes** (what are the common issues/topics)\n4. **Priority Issues** (highlight high-priority or urgent items)\n5. **Recommendations** (actionable insights for the team/manager)\n\nKeep the analysis concise and manager-friendly. Focus on actionable insights.\n\nTicket Data:\n"

/-- The `"detailed"` entry of the `prompts` dict (lines 167–206), verbatim. -/
def detailed_prompt : String :=
  "\nYou are a senior analyst reviewing 600 Level 2 tech support Jira tickets. Your goal is to extract operational and team performance insights. Provide specific, data-driven answers. Be concise, but insightful. Avoid generic statements.\n\nAnalyze the following:\n\n1. 🔁 **Recurring Issues & Technical Trends**\n   - Cluster similar tickets by keywords or symptoms (e.g. \"timeout\", \"duplicate entry\", \"3DS failure\")\n   - Give counts per cluster and example ticket IDs\n   - Identify what systems/modules cause the most trouble\n\n2. 👤 **Most Valuable Personnel**\n   - Who resolves the most tickets?\n   - Who handles the most complex tickets? (longest descriptions, critical priority)\n   - Who closes tickets fastest (median resolution time)?\n   - Who gets stuck most often? (tickets blocked or not updated >7 days)\n\n3. 🧱 **Bottlenecks & Risks**\n   - Where are tickets getting stuck? (statuses, handoffs, specific assignees)\n   - Are there neglected tickets (e.g., open for >14 days)?\n   - Are high-priority tickets resolved faster than low-priority ones?\n\n4. 🗓️ **Time-Based Trends**\n   - Ticket volume by week/month\n   - Resolution time trends: is it improving?\n   - Peaks in ticket creation or slowdowns in resolution — identify and explain\n\n5. 📈 **Process and Workflow Patterns**\n   - Average number of status transitions per ticket\n   - Any patterns in ticket reopenings?\n   - Any assignee-specific patterns? (e.g. \"Assignee X always gets API errors\")\n\n6. 🚨 **Actionable Recommendations**\n   - Suggest team/process improvements\n   - Propose which recurring issues should be fixed at the root\n   - Identify where automation could reduce ticket load\n\nBe specific. Use bullet points and tables where appropriate. Include counts, percentages, and ticket IDs. This analysis is for a support team manager who wants to improve efficiency, identify top performers, and reduce recurring problems.\n\nTicket Data:\n"

/-- The `"trends"` entry of the `prompts` dict (lines 207–269), verbatim. -/
def trends_prompt : String :=
  "\nAnalyze these Jira tickets for detailed trends and actionable insights. Provide specific data points, numbers, and examples where possible:\n\n## 1. **TEMPORAL ANALYSIS**\n- **Ticket Volume by Time**: Count tickets created per day/week/month. Identify peak periods and quiet times.\n- **Time-to-Resolution**: Calculate average time from creation to resolution for different ticket types and priorities.\n- **Age Analysis**: Identify tickets that have been open for unusually long periods.\n\n## 2. **WORKFLOW & STATUS ANALYSIS**\n- **Status Distribution**: Current count of tickets in each status (To Do, In Progress, Pending, Blocked, Done, etc.)\n- **Stuck Tickets Analysis**: \n  - List tickets in \"Pending\" status for >X days with specific ticket IDs\n  - List tickets in \"Blocked\" status for >X days with specific ticket IDs\n  - Identify which tickets haven't been updated recently\n- **Status Transition Patterns**: How tickets typically flow through statuses\n\n## 3. **WORKLOAD & ASSIGNEE ANALYSIS**\n- **Tickets per Assignee**: Count and percentage breakdown by team member\n- **Assignee Performance Patterns**: \n  - Who has the most open tickets?\n  - Who resolves tickets fastest/slowest?\n  - Which assignees have tickets stuck in specific statuses?\n- **Workload Balance**: Identify overloaded vs underutilized team members\n\n## 4. **PROBLEM PATTERN ANALYSIS**\n- **Similar Issue Clustering**: Group tickets with very similar titles, descriptions, or error patterns\n  - Example: \"Payment processing errors\" (count: X tickets)\n  - Example: \"API timeout issues\" (count: X tickets)  \n  - Example: \"Database connection problems\" (count: X tickets)\n- **Recurring Keywords**: Most frequent words/phrases in ticket descriptions\n- **Error Pattern Detection**: Common error codes, system names, or technical issues\n\n## 5. **DEPENDENCY & CORRELATION ANALYSIS**\n- **Assignee-Specific Patterns**: \n  - Does Assignee X always get certain types of tickets?\n  - Which assignees have recurring similar problems?\n  - Are some team members specialists in specific areas?\n- **Subject-Matter Dependencies**: \n  - Which topics/systems generate the most tickets?\n  - Are certain subjects always assigned to the same people?\n  - What are the most problematic systems/features?\n\n## 6. **PRIORITY & IMPACT ANALYSIS**\n- **Priority Distribution**: Breakdown by High/Medium/Low priority\n- **Priority vs Time-to-Resolution**: Do high-priority tickets actually get resolved faster?\n- **Escalation Patterns**: Which types of tickets tend to get escalated?\n\n## 7. **ACTIONABLE RECOMMENDATIONS**\nBased on the patterns found, provide specific recommendations:\n- Which processes need improvement?\n- Where are the bottlenecks?\n- What training might be needed?\n- How to better distribute workload?\n- Which recurring issues need permanent fixes?\n\n**IMPORTANT**: For each insight, provide:\n- Specific numbers and percentages\n- Actual ticket IDs as examples where relevant\n- Clear actionable recommendations\n- Potential root causes for identified problems\n\nTicket Data:\n"

/-- `prompts.get(analysis_type, prompts["summary"])` (line 272). -/
def prompt_for (analysis_type : String) : String :=
  if analysis_type = "summary" then summary_prompt
  else if analysis_type = "detailed" then detailed_prompt
  else if analysis_type = "trends" then trends_prompt
  else summary_prompt

/-- The completion requests issued by one call to `analyze_with_ollama`
(lines 151–290): unconditionally, exactly one `ollama.chat` call is made, whose
single user message is the selected instruction template with the projected
ticket data appended verbatim. -/
def analyze_with_ollama_requests (ticket_data : String) (analysis_type : String) :
    List String :=
  [prompt_for analysis_type ++ ticket_data]

/-- What `display_ticket_table` (lines 292–314) tells the user when there is
nothing to show: on an empty ticket list it prints a message and returns before
rendering any table.  The table rendering itself is an excluded collaborator. -/
def display_ticket_table_message (tickets : List Ticket) : Option String :=
  if tickets.isEmpty then some "No tickets to display" else none

/-- The observable trace of `quick_summary` (lines 337–350): the table message,
then the completion requests issued by `analyze_with_ollama` on the projection
with analysis type `"summary"`. -/
structure QuickSummaryTrace where
  tableMessage : Option String
  chatRequests : List String
  deriving DecidableEq

/-- `quick_summary` (lines 337–350): displays the table, projects the loaded
tickets, and calls `analyze_with_ollama(ticket_data, "summary")`. -/
def quick_summary_trace (tickets : List Ticket) : QuickSummaryTrace :=
  { tableMessage := display_ticket_table_message tickets
    chatRequests :=
      analyze_with_ollama_requests (prepare_ticket_data_for_analysis tickets) "summary" }

/-! ## Paginated fetch loop (`jira_fetcher.py`, `fetch_tickets`, lines 93–180) -/

/-- `batch_size = 100` (line 104). -/
def batch_size : Nat := 100

/-- The Python truthiness test `if max_results and len(all_tickets) >= max_results`
(line 155): `None` and `0` are both falsy. -/
def capReached (max_results : Option Nat) (count : Nat) : Bool :=
  match max_results with
  | some m => decide (m ≠ 0) && decide (m ≤ count)
  | none => false

/-- The result of one run of the fetch loop: the accumulated tickets, the
number of page requests issued, and the sizes of the successfully received
pages in order. -/
structure FetchResult where
  tickets : List Ticket
  requests : Nat
  pageSizes : List Nat
  deriving DecidableEq

/-- The `while True:` pagination loop of `fetch_tickets` (lines 107–166), with
explicit fuel.  Per iteration, in the code's order: a failed request (`none`)
breaks and the accumulated tickets are returned (the `except` clause returns
them too); an empty page breaks; otherwise the batch is appended; a truthy
user cap that has been reached truncates to the cap and breaks; reaching the
declared total breaks; otherwise `start_at += batch_size` and loop. -/
def fetch_loop (page : Nat → Option (List Ticket × Nat)) (max_results : Option Nat) :
    Nat → Nat → List Ticket → Nat → List Nat → FetchResult
  | 0, _, acc, reqs, sizes => ⟨acc, reqs, sizes⟩
  | fuel + 1, start_at, acc, reqs, sizes =>
    match page start_at with
    | none => ⟨acc, reqs + 1, sizes⟩
    | some (batch, total) =>
      if batch.isEmpty then ⟨acc, reqs + 1, sizes ++ [batch.length]⟩
      else
        if capReached max_results (acc ++ batch).length then
          ⟨(acc ++ batch).take (max_results.getD 0), reqs + 1, sizes ++ [batch.length]⟩
        else if total ≤ (acc ++ batch).length then
          ⟨acc ++ batch, reqs + 1, sizes ++ [batch.length]⟩
        else fetch_loop page max_results fuel (start_at + batch_size) (acc ++ batch)
          (reqs + 1) (sizes ++ [batch.length])

/-- `fetch_tickets(max_results)`: run the pagination loop from
`start_at = 0` with an empty accumulator. -/
def fetch_tickets (page : Nat → Option (List Ticket × Nat)) (max_results : Option Nat)
    (fuel : Nat) : FetchResult :=
  fetch_loop page max_results fuel 0 [] 0 []

/-- A well-behaved server holding a fixed ordered ticket list: every page
request succeeds, returns up to `batch_size` tickets from the requested offset,
and declares the full count as `total`. -/
def idealPage (tickets : List Ticket) (start_at : Nat) : Option (List Ticket × Nat) :=
  some ((tickets.drop start_at).take batch_size, tickets.length)

/-- A server whose first `k` page requests (offsets `0, 100, …, 100*(k-1)`)
succeed like `idealPage` and whose requests from offset `100*k` on fail. -/
def failAfter (tickets : List Ticket) (k : Nat) (start_at : Nat) :
    Option (List Ticket × Nat) :=
  if start_at < batch_size * k then idealPage tickets start_at else none

/-! ## Snapshot persistence (`save_tickets_to_json`, lines 182–206, and
`load_ticket_data`, `ticket_analyzer.py` lines 52–73) -/

/-- A value of the persisted JSON document's top-level object.  The tickets
array is kept structured: the per-ticket JSON codec is the (excluded) standard
library's and is faithful. -/
inductive JsonField where
  | jstr : String → JsonField
  | jnum : Nat → JsonField
  | jarr : List Ticket → JsonField
  deriving DecidableEq

/-- `DEFAULT_JQL` (`jira_fetcher.py` line 35). -/
def DEFAULT_JQL : String :=
  "project = L2 AND updated >= -300d ORDER BY updated DESC"

/-- The top-level object written by `save_tickets_to_json` (lines 190–195). -/
def save_tickets_to_json (tickets : List Ticket) (now : String) :
    List (String × JsonField) :=
  [("fetch_timestamp", JsonField.jstr now),
   ("jql_query", JsonField.jstr DEFAULT_JQL),
   ("total_tickets", JsonField.jnum tickets.length),
   ("tickets", JsonField.jarr tickets)]

/-- `load_ticket_data` (lines 52–73): reads the document back and takes
`data.get('tickets', [])`. -/
def load_ticket_data (doc : List (String × JsonField)) : List Ticket :=
  match doc.lookup "tickets" with
  | some (JsonField.jarr ts) => ts
  | _ => []

/-! ## Helper lemmas about the fetch loop -/

/-- With `max_results = 0`, the truthiness test of line 155 is never taken. -/
theorem capReached_zero (count : Nat) : capReached (some 0) count = false := by
  simp [capReached]

theorem capReached_none (count : Nat) : capReached none count = false := rfl

/-- A page of a well-behaved server is empty exactly when the offset is past
the end of the ticket list. -/
theorem idealPage_batch_empty (tickets : List Ticket) (start_at : Nat) :
    ((tickets.drop start_at).take batch_size).isEmpty = true ↔
      tickets.length ≤ start_at := by
  rw [List.isEmpty_iff, List.take_eq_nil_iff]
  constructor
  · rintro (h | h)
    · exact absurd h (by simp [batch_size])
    · exact List.drop_eq_nil_iff.mp h
  · intro h
    exact Or.inr (List.drop_eq_nil_iff.mpr h)

/-- Against any server, a cap of exactly `0` is the same as no cap at all:
the loop never takes the truncation branch in either case. -/
theorem fetch_loop_cap_zero (page : Nat → Option (List Ticket × Nat)) :
    ∀ (fuel start_at : Nat) (acc : List Ticket) (reqs : Nat) (sizes : List Nat),
      fetch_loop page (some 0) fuel start_at acc reqs sizes
        = fetch_loop page none fuel start_at acc reqs sizes := by
  intro fuel
  induction fuel with
  | zero => intro start_at acc reqs sizes; rfl
  | succ n ih =>
    intro start_at acc reqs sizes
    rw [fetch_loop, fetch_loop]
    cases page start_at with
    | none => rfl
    | some pr =>
      obtain ⟨batch, total⟩ := pr
      by_cases hb : batch.isEmpty
      · simp [hb]
      · simp only [hb, if_false, capReached_zero, capReached_none, Bool.false_eq_true]
        split
        · rfl
        · exact ih _ _ _ _

/-- Uncapped fetch against a well-behaved server: starting from an accumulator
holding `start_at` tickets, the loop returns the accumulator extended with
everything from the offset on, provided the fuel covers the remaining pages. -/
theorem fetch_loop_ideal_none (tickets : List Ticket) :
    ∀ (fuel start_at : Nat) (acc : List Ticket) (reqs : Nat) (sizes : List Nat),
      acc.length = start_at →
      tickets.length ≤ start_at + batch_size * fuel →
      (fetch_loop (idealPage tickets) none fuel start_at acc reqs sizes).tickets
        = acc ++ tickets.drop start_at := by
  intro fuel
  induction fuel with
  | zero =>
    intro start_at acc reqs sizes hlen hfuel
    rw [List.drop_eq_nil_iff.mpr (by omega), List.append_nil]
    rfl
  | succ n ih =>
    intro start_at acc reqs sizes hlen hfuel
    rw [fetch_loop]
    simp only [idealPage]
    by_cases hend : tickets.length ≤ start_at
    · rw [if_pos ((idealPage_batch_empty tickets start_at).mpr hend)]
      rw [List.drop_eq_nil_iff.mpr hend, List.append_nil]
    · rw [if_neg (by rw [idealPage_batch_empty]; omega)]
      simp only [capReached_none, Bool.false_eq_true, if_false]
      have hlen2 : (acc ++ (tickets.drop start_at).take batch_size).length
          = start_at + min batch_size (tickets.length - start_at) := by
        simp [hlen, List.length_take]
      by_cases hlast : tickets.length ≤ start_at + batch_size
      · rw [if_pos (by rw [hlen2]; omega)]
        rw [List.take_of_length_le (by rw [List.length_drop]; omega)]
      · rw [if_neg (by rw [hlen2]; omega)]
        rw [ih (start_at + batch_size) _ _ _ (by rw [hlen2]; omega) (by
          have : batch_size * (n + 1) = batch_size * n + batch_size := by ring
          omega)]
        rw [List.append_assoc]
        congr 1
        rw [← List.drop_drop, List.take_append_drop]

/-- Capped fetch against a well-behaved server: while the cap has not been
reached, the accumulator is the prefix of the ticket list up to the offset, and
the loop finally returns the first `min m T` tickets. -/
theorem fetch_loop_ideal_cap (tickets : List Ticket) (m : Nat) (hm : 0 < m) :
    ∀ (fuel start_at : Nat) (reqs : Nat) (sizes : List Nat),
      start_at ≤ tickets.length →
      start_at < m →
      tickets.length ≤ start_at + batch_size * fuel →
      (fetch_loop (idealPage tickets) (some m) fuel start_at
          (tickets.take start_at) reqs sizes).tickets
        = tickets.take (min m tickets.length) := by
  intro fuel
  induction fuel with
  | zero =>
    intro start_at reqs sizes hle hcap hfuel
    have hT : start_at = tickets.length := by omega
    have hmT : min m tickets.length = tickets.length := by omega
    rw [hmT, hT]
    rfl
  | succ n ih =>
    intro start_at reqs sizes hle hcap hfuel
    rw [fetch_loop]
    simp only [idealPage]
    by_cases hend : tickets.length ≤ start_at
    · rw [if_pos ((idealPage_batch_empty tickets start_at).mpr hend)]
      have hT : start_at = tickets.length := by omega
      have hmT : min m tickets.length = tickets.length := by omega
      rw [hmT, hT]
    · rw [if_neg (by rw [idealPage_batch_empty]; omega)]
      have hacc2 : tickets.take start_at ++ (tickets.drop start_at).take batch_size
          = tickets.take (start_at + batch_size) := (List.take_add ..).symm
      have hlen2 : (tickets.take start_at ++ (tickets.drop start_at).take batch_size).length
          = min (start_at + batch_size) tickets.length := by
        rw [hacc2, List.length_take]
      by_cases hcap2 : m ≤ min (start_at + batch_size) tickets.length
      · rw [if_pos (by
          unfold capReached
          rw [hlen2]
          simp only [Bool.and_eq_true, decide_eq_true_eq]
          omega)]
        simp only [Option.getD_some]
        rw [hacc2, List.take_take]
        have h1 : min m (start_at + batch_size) = m := by omega
        have h2 : min m tickets.length = m := by omega
        rw [h1, h2]
      · rw [if_neg (by
          unfold capReached
          rw [hlen2]
          simp only [Bool.and_eq_true, decide_eq_true_eq, not_and]
          omega)]
        by_cases hlast : tickets.length ≤ start_at + batch_size
        · rw [if_pos (by rw [hlen2]; omega)]
          rw [hacc2]
          have h1 : tickets.take (start_at + batch_size) = tickets :=
            List.take_of_length_le hlast
          have h2 : min m tickets.length = tickets.length := by omega
          rw [h1, h2, List.take_length]
        · rw [if_neg (by rw [hlen2]; omega)]
          rw [hacc2]
          exact ih (start_at + batch_size) _ _ (by omega) (by omega) (by
            have : batch_size * (n + 1) = batch_size * n + batch_size := by ring
            omega)

/-- Fetch against a server that fails at offset `100 * k`: starting at page `j`
with the corresponding prefix accumulated, the loop requests pages
`j, …, k - 1` successfully (each of size 100), the request for page `k` fails,
and the loop returns what was accumulated before the failure. -/
theorem fetch_loop_failAfter (tickets : List Ticket) (k : Nat)
    (hk : batch_size * k < tickets.length) :
    ∀ (fuel j reqs : Nat) (sizes : List Nat),
      j ≤ k → k < j + fuel →
      fetch_loop (failAfter tickets k) none fuel (batch_size * j)
          (tickets.take (batch_size * j)) reqs sizes
        = ⟨tickets.take (batch_size * k), reqs + (k - j) + 1,
            sizes ++ List.replicate (k - j) batch_size⟩ := by
  intro fuel
  induction fuel with
  | zero =>
    intro j reqs sizes hj hfuel
    omega
  | succ n ih =>
    intro j reqs sizes hj hfuel
    rw [fetch_loop]
    by_cases hjk : j = k
    · subst hjk
      rw [failAfter, if_neg (by omega)]
      simp
    · have hjk2 : j + 1 ≤ k := by omega
      have hbs : 0 < batch_size := by decide
      have hmono : batch_size * (j + 1) ≤ batch_size * k :=
        Nat.mul_le_mul_left batch_size hjk2
      have hsucc : batch_size * j + batch_size = batch_size * (j + 1) := by ring
      have hpage : failAfter tickets k (batch_size * j)
          = idealPage tickets (batch_size * j) := by
        rw [failAfter, if_pos (by omega)]
      rw [hpage]
      simp only [idealPage]
      rw [if_neg (by rw [idealPage_batch_empty]; omega)]
      simp only [capReached_none, Bool.false_eq_true, if_false]
      have hacc2 : tickets.take (batch_size * j)
            ++ (tickets.drop (batch_size * j)).take batch_size
          = tickets.take (batch_size * (j + 1)) := by
        rw [← hsucc]
        exact (List.take_add ..).symm
      have hlen2 : (tickets.take (batch_size * j)
            ++ (tickets.drop (batch_size * j)).take batch_size).length
          = min (batch_size * j + batch_size) tickets.length := by
        rw [hacc2, ← hsucc, List.length_take]
      have hbl : ((tickets.drop (batch_size * j)).take batch_size).length
          = batch_size := by
        rw [List.length_take, List.length_drop]
        omega
      rw [if_neg (by rw [hlen2]; omega)]
      rw [hacc2, hbl, hsucc]
      rw [ih (j + 1) (reqs + 1) (sizes ++ [batch_size]) hjk2 (by omega)]
      simp only [FetchResult.mk.injEq, true_and]
      constructor
      · omega
      · rw [List.append_assoc, List.singleton_append]
        have hrep : (batch_size : Nat) :: List.replicate (k - (j + 1)) batch_size
            = List.replicate (k - j) batch_size := by
          rw [← List.replicate_succ]
          congr 1
          omega
        rw [hrep]

/-! ## Concrete records used by witnesses -/

/-- A fields record with every optional member absent/null. -/
def emptyFields : Fields :=
  { summary := none, description := none, status := none, priority := none,
    issuetype := none, assignee := none, reporter := none, created := none,
    updated := none, comment := none }

/-- A minimal sample ticket. -/
def sampleTicket (k : String) : Ticket :=
  { key := k, fields := emptyFields, changelog := none }

def threeTickets : List Ticket :=
  [sampleTicket "L2-1", sampleTicket "L2-2", sampleTicket "L2-3"]

def tickets101 : List Ticket := List.replicate 101 (sampleTicket "L2-1")

def tickets250 : List Ticket := List.replicate 250 (sampleTicket "L2-1")

/-- A 500-character description. -/
def d500 : String := ⟨List.replicate 500 'a'⟩

/-- A 200-character comment body. -/
def b200 : String := ⟨List.replicate 200 'b'⟩

/-! ## Claim theorems -/

/-- C2: against a well-behaved server exposing `T` tickets, `fetch_tickets`
with a cap `C > 0` returns exactly the first `min C T` tickets in the
server-declared order, and with no cap returns exactly all `T` tickets in the
server-declared order. -/
theorem C2_fetch_min_cap_total (tickets : List Ticket) (C : Nat) (hC : 0 < C) :
    (fetch_tickets (idealPage tickets) (some C) (tickets.length + 1)).tickets
        = tickets.take (min C tickets.length)
    ∧ (fetch_tickets (idealPage tickets) (some C) (tickets.length + 1)).tickets.length
        = min C tickets.length
    ∧ (fetch_tickets (idealPage tickets) none (tickets.length + 1)).tickets = tickets
    ∧ (fetch_tickets (idealPage tickets) none (tickets.length + 1)).tickets.length
        = tickets.length := by
  have hbs : 0 < batch_size := by decide
  have hfuel : tickets.length ≤ 0 + batch_size * (tickets.length + 1) := by
    have h := Nat.le_mul_of_pos_left (tickets.length + 1) hbs
    omega
  have hcap := fetch_loop_ideal_cap tickets C hC (tickets.length + 1) 0 0 []
    (Nat.zero_le _) hC hfuel
  rw [List.take_zero] at hcap
  have hnone := fetch_loop_ideal_none tickets (tickets.length + 1) 0 [] 0 [] rfl hfuel
  rw [List.nil_append, List.drop_zero] at hnone
  unfold fetch_tickets
  refine ⟨hcap, ?_, hnone, ?_⟩
  · rw [hcap, List.length_take]
    omega
  · rw [hnone]

/-- Witness for C2: cap 2 against a three-ticket server. -/
theorem C2_fetch_min_cap_total_witness :
    0 < 2
    ∧ ((fetch_tickets (idealPage threeTickets) (some 2) (threeTickets.length + 1)).tickets
          = threeTickets.take (min 2 threeTickets.length)
      ∧ (fetch_tickets (idealPage threeTickets) (some 2)
            (threeTickets.length + 1)).tickets.length = min 2 threeTickets.length
      ∧ (fetch_tickets (idealPage threeTickets) none (threeTickets.length + 1)).tickets
          = threeTickets
      ∧ (fetch_tickets (idealPage threeTickets) none
            (threeTickets.length + 1)).tickets.length = threeTickets.length) :=
  ⟨by decide, C2_fetch_min_cap_total threeTickets 2 (by decide)⟩

/-- C3: if a page request fails (transport error or non-success status) after
`k ≥ 1` pages were already accumulated, the loop stops at the failure, returns
the already-accumulated tickets — the embedding returns them as a value, with
no exception channel, mirroring the `break`/`except` paths that both return
`all_tickets` — and the returned count is positive yet less than the declared
total. -/
theorem C3_failure_returns_partial (tickets : List Ticket) (k : Nat)
    (hk1 : 1 ≤ k) (hk2 : batch_size * k < tickets.length) :
    (fetch_tickets (failAfter tickets k) none (tickets.length + 1)).tickets
        = tickets.take (batch_size * k)
    ∧ (fetch_tickets (failAfter tickets k) none (tickets.length + 1)).tickets.length
        = batch_size * k
    ∧ 0 < (fetch_tickets (failAfter tickets k) none (tickets.length + 1)).tickets.length
    ∧ (fetch_tickets (failAfter tickets k) none (tickets.length + 1)).tickets.length
        < tickets.length
    ∧ (fetch_tickets (failAfter tickets k) none (tickets.length + 1)).requests = k + 1 := by
  have hbs : 0 < batch_size := by decide
  have hkk : k ≤ batch_size * k := Nat.le_mul_of_pos_left k hbs
  have h := fetch_loop_failAfter tickets k hk2 (tickets.length + 1) 0 0 []
    (Nat.zero_le k) (by omega)
  simp only [Nat.mul_zero, List.take_zero] at h
  have hone : batch_size * 1 ≤ batch_size * k := Nat.mul_le_mul_left batch_size hk1
  unfold fetch_tickets
  rw [h]
  have hlen : (tickets.take (batch_size * k)).length = batch_size * k := by
    rw [List.length_take]
    omega
  refine ⟨rfl, hlen, ?_, ?_, ?_⟩
  · rw [hlen]; omega
  · rw [hlen]; omega
  · show 0 + (k - 0) + 1 = k + 1
    omega

set_option maxRecDepth 4000 in
/-- Witness for C3: the failure hits after one full page of a 101-ticket server. -/
theorem C3_failure_returns_partial_witness :
    1 ≤ 1
    ∧ batch_size * 1 < tickets101.length
    ∧ ((fetch_tickets (failAfter tickets101 1) none (tickets101.length + 1)).tickets
          = tickets101.take (batch_size * 1)
      ∧ (fetch_tickets (failAfter tickets101 1) none
            (tickets101.length + 1)).tickets.length = batch_size * 1
      ∧ 0 < (fetch_tickets (failAfter tickets101 1) none
            (tickets101.length + 1)).tickets.length
      ∧ (fetch_tickets (failAfter tickets101 1) none
            (tickets101.length + 1)).tickets.length < tickets101.length
      ∧ (fetch_tickets (failAfter tickets101 1) none
            (tickets101.length + 1)).requests = 1 + 1) :=
  ⟨by decide, by decide, C3_failure_returns_partial tickets101 1 (by decide) (by decide)⟩

set_option maxRecDepth 40000 in
/-- C7: against a well-behaved server declaring total 250 with page size 100,
with no cap and no failure, the loop issues exactly 3 page requests, receiving
pages of 100, 100 and 50 tickets, and then stops with all 250 tickets. -/
theorem C7_three_page_requests :
    (fetch_tickets (idealPage tickets250) none 10).requests = 3
    ∧ (fetch_tickets (idealPage tickets250) none 10).pageSizes = [100, 100, 50]
    ∧ (fetch_tickets (idealPage tickets250) none 10).tickets = tickets250 := by
  refine ⟨?_, ?_, ?_⟩ <;> rfl

/-- C10: a cap of exactly 0 is falsy in the truthiness test of line 155, so it
behaves as if no cap were given — against any server the run is identical, and
against a well-behaved server with `T` tickets all `T` are returned. -/
theorem C10_cap_zero_is_uncapped (page : Nat → Option (List Ticket × Nat))
    (fuel : Nat) (tickets : List Ticket) :
    fetch_tickets page (some 0) fuel = fetch_tickets page none fuel
    ∧ (fetch_tickets (idealPage tickets) (some 0) (tickets.length + 1)).tickets
        = tickets := by
  constructor
  · unfold fetch_tickets
    exact fetch_loop_cap_zero page fuel 0 [] 0 []
  · unfold fetch_tickets
    rw [fetch_loop_cap_zero]
    have hbs : 0 < batch_size := by decide
    have hfuel : tickets.length ≤ 0 + batch_size * (tickets.length + 1) := by
      have h := Nat.le_mul_of_pos_left (tickets.length + 1) hbs
      omega
    have h := fetch_loop_ideal_none tickets (tickets.length + 1) 0 [] 0 [] rfl hfuel
    rw [List.nil_append, List.drop_zero] at h
    exact h

/-- C4: in the projection, a description longer than 300 characters is replaced
by its first 300 characters followed by the ellipsis marker `"..."`; in
particular its projected length is exactly 303 characters, and the `Description:`
template value also carries the truncated text. -/
theorem C4_description_truncation (f : Fields) (d : String)
    (hf : f.description = some d) (hd : 300 < d.length) :
    truncate_description d = pySlice d 300 ++ "..."
    ∧ (pySlice d 300).length = 300
    ∧ (truncate_description d).length = 303
    ∧ rendered_description f = pySlice d 300 ++ "..." := by
  have hne : d ≠ "" := by
    intro h
    rw [h] at hd
    exact absurd hd (by decide)
  have ht : truncate_description d = pySlice d 300 ++ "..." := by
    rw [truncate_description, if_pos ⟨hne, hd⟩]
  have hlen : (pySlice d 300).length = 300 := by
    show (d.data.take 300).length = 300
    rw [List.length_take]
    have hdl : d.length = d.data.length := rfl
    omega
  have hlen3 : (truncate_description d).length = 303 := by
    rw [ht, String.length_append, hlen]
    rfl
  refine ⟨ht, hlen, hlen3, ?_⟩
  have htrne : truncate_description d ≠ "" := by
    intro h
    rw [h] at hlen3
    exact absurd hlen3 (by decide)
  rw [rendered_description, hf]
  simp only [Option.getD_some]
  rw [if_neg htrne]
  exact ht

/-- A fields record with a 500-character description. -/
def f500 : Fields := { emptyFields with description := some d500 }

set_option maxRecDepth 40000 in
/-- Witness for C4: the 500-character description of the spec scenario. -/
theorem C4_description_truncation_witness :
    f500.description = some d500
    ∧ 300 < d500.length
    ∧ (truncate_description d500 = pySlice d500 300 ++ "..."
      ∧ (pySlice d500 300).length = 300
      ∧ (truncate_description d500).length = 303
      ∧ rendered_description f500 = pySlice d500 300 ++ "...") :=
  ⟨rfl, by decide, C4_description_truncation f500 d500 rfl (by decide)⟩

/-- C5: in the projection, only the last 2 history entries of the changelog are
kept, and for each field-change item of a kept entry exactly one line
`"  <author>: <field> changed from '<old>' to '<new>'"` is emitted (the code
indents each line with two spaces). -/
theorem C5_history_last_two (t : Ticket) (cl : Changelog)
    (pre : List HistoryEntry) (e1 e2 : HistoryEntry)
    (hcl : t.changelog = some cl) (hh : cl.histories = pre ++ [e1, e2]) :
    history_lines t
      = (e1.items.map fun it =>
          "  " ++ optDisplayName e1.author "Unknown" ++ ": " ++ it.field ++
            " changed from '" ++ it.fromString ++ "' to '" ++ HistoryItem.toString it ++ "'")
        ++ (e2.items.map fun it =>
          "  " ++ optDisplayName e2.author "Unknown" ++ ": " ++ it.field ++
            " changed from '" ++ it.fromString ++ "' to '" ++ HistoryItem.toString it ++ "'") := by
  have hlast : lastN 2 cl.histories = [e1, e2] := by
    rw [hh, lastN]
    have hl : (pre ++ [e1, e2]).length - 2 = pre.length := by
      simp
    rw [hl, List.drop_left]
  calc history_lines t
      = (lastN 2 cl.histories).flatMap history_entry_lines := by
        unfold history_lines
        rw [hcl]
    _ = ([e1, e2] : List HistoryEntry).flatMap history_entry_lines := by rw [hlast]
    _ = history_entry_lines e1 ++ history_entry_lines e2 := by
        simp [List.flatMap]
    _ = _ := rfl

def histEntry1 : HistoryEntry :=
  { author := some { displayName := some "Alice" }
    items := [{ field := "status", fromString := "Open", toString := "In Progress" }] }

def histEntry2 : HistoryEntry :=
  { author := some { displayName := some "Bob" }
    items := [{ field := "status", fromString := "In Progress", toString := "Done" },
              { field := "priority", fromString := "Low", toString := "High" }] }

def histEntry0 : HistoryEntry :=
  { author := none
    items := [{ field := "assignee", fromString := "", toString := "Alice" }] }

def changelogEx : Changelog := { histories := [histEntry0, histEntry1, histEntry2] }

def ticketWithHistory : Ticket :=
  { key := "L2-7", fields := emptyFields, changelog := some changelogEx }

/-- Witness for C5: a changelog with three entries keeps only the last two. -/
theorem C5_history_last_two_witness :
    ticketWithHistory.changelog = some changelogEx
    ∧ changelogEx.histories = [histEntry0] ++ [histEntry1, histEntry2]
    ∧ history_lines ticketWithHistory
      = (histEntry1.items.map fun it =>
          "  " ++ optDisplayName histEntry1.author "Unknown" ++ ": " ++ it.field ++
            " changed from '" ++ it.fromString ++ "' to '" ++ HistoryItem.toString it ++ "'")
        ++ (histEntry2.items.map fun it =>
          "  " ++ optDisplayName histEntry2.author "Unknown" ++ ": " ++ it.field ++
            " changed from '" ++ it.fromString ++ "' to '" ++ HistoryItem.toString it ++ "'") :=
  ⟨rfl, rfl, C5_history_last_two ticketWithHistory changelogEx [histEntry0]
    histEntry1 histEntry2 rfl rfl⟩

/-- C6: the projection is a total Lean function over the record model — the
embedding has no exception channel, mirroring that the code only probes the
record with `dict.get` and truthiness — and every missing or null optional
field is rendered as its literal, non-blank placeholder: `"Unassigned"` for
the assignee, `"Unknown"` for the reporter, `"No description"` for the
description. -/
theorem C6_placeholder_fallbacks (f : Fields) :
    (f.assignee = none → assignee_name f = "Unassigned" ∧ assignee_name f ≠ "")
    ∧ (f.reporter = none → reporter_name f = "Unknown" ∧ reporter_name f ≠ "")
    ∧ (f.description = none →
        rendered_description f = "No description" ∧ rendered_description f ≠ "") := by
  refine ⟨fun h => ?_, fun h => ?_, fun h => ?_⟩
  · unfold assignee_name
    rw [h]
    exact ⟨rfl, by decide⟩
  · unfold reporter_name
    rw [h]
    exact ⟨rfl, by decide⟩
  · unfold rendered_description
    rw [h]
    exact ⟨by decide, by decide⟩

/-- Witness for C6: a ticket whose assignee, reporter and description are all
null renders all three placeholders. -/
theorem C6_placeholder_fallbacks_witness :
    emptyFields.assignee = none
    ∧ emptyFields.reporter = none
    ∧ emptyFields.description = none
    ∧ (assignee_name emptyFields = "Unassigned" ∧ assignee_name emptyFields ≠ "")
    ∧ (reporter_name emptyFields = "Unknown" ∧ reporter_name emptyFields ≠ "")
    ∧ (rendered_description emptyFields = "No description"
        ∧ rendered_description emptyFields ≠ "") :=
  ⟨rfl, rfl, rfl, (C6_placeholder_fallbacks emptyFields).1 rfl,
    (C6_placeholder_fallbacks emptyFields).2.1 rfl,
    (C6_placeholder_fallbacks emptyFields).2.2 rfl⟩

/-- C8: in the projection, only the last 3 comments (by storage order) are
kept, in their original order; each kept comment's line is prefixed with its
author's display name, and a body longer than 150 characters is truncated to
its first 150 characters plus the ellipsis marker. -/
theorem C8_comments_last_three (f : Fields) (cf : CommentField)
    (pre : List Comment) (c1 c2 c3 : Comment) (b : String)
    (hcf : f.comment = some cf) (hc : cf.comments = pre ++ [c1, c2, c3])
    (hb : 150 < b.length) :
    comment_lines f
      = [c1, c2, c3].map (fun c =>
          "  " ++ optDisplayName c.author "Unknown" ++ ": " ++ truncate_body c.body)
    ∧ truncate_body b = pySlice b 150 ++ "..."
    ∧ (truncate_body b).length = 153 := by
  have hlast : lastN 3 cf.comments = [c1, c2, c3] := by
    rw [hc, lastN]
    have hl : (pre ++ [c1, c2, c3]).length - 3 = pre.length := by
      simp
    rw [hl, List.drop_left]
  have htb : truncate_body b = pySlice b 150 ++ "..." := by
    rw [truncate_body, if_pos hb]
  have hlenb : (pySlice b 150).length = 150 := by
    show (b.data.take 150).length = 150
    rw [List.length_take]
    have hdl : b.length = b.data.length := rfl
    omega
  refine ⟨?_, htb, ?_⟩
  · calc comment_lines f
        = (lastN 3 cf.comments).map comment_line := by
          unfold comment_lines
          rw [hcf]
      _ = ([c1, c2, c3] : List Comment).map comment_line := by rw [hlast]
      _ = _ := rfl
  · rw [htb, String.length_append, hlenb]
    rfl

def commentEx (who body : String) : Comment :=
  { author := some { displayName := some who }, body := body }

/-- The five comments of the spec's witness scenario; the last is long. -/
def fiveComments : List Comment :=
  [commentEx "Ann" "first", commentEx "Ben" "second", commentEx "Cid" "third",
   commentEx "Dou" "fourth", { author := some { displayName := some "Eve" }, body := b200 }]

def fieldsWithComments : Fields :=
  { emptyFields with comment := some { comments := fiveComments } }

set_option maxRecDepth 40000 in
/-- Witness for C8: five comments, the last with a 200-character body. -/
theorem C8_comments_last_three_witness :
    fieldsWithComments.comment = some { comments := fiveComments }
    ∧ fiveComments
        = [commentEx "Ann" "first", commentEx "Ben" "second"]
          ++ [commentEx "Cid" "third", commentEx "Dou" "fourth",
              { author := some { displayName := some "Eve" }, body := b200 }]
    ∧ 150 < b200.length
    ∧ (comment_lines fieldsWithComments
        = [commentEx "Cid" "third", commentEx "Dou" "fourth",
            { author := some { displayName := some "Eve" }, body := b200 }].map (fun c =>
            "  " ++ optDisplayName c.author "Unknown" ++ ": " ++ truncate_body c.body)
      ∧ truncate_body b200 = pySlice b200 150 ++ "..."
      ∧ (truncate_body b200).length = 153) :=
  ⟨rfl, rfl, by decide,
    C8_comments_last_three fieldsWithComments { comments := fiveComments }
      [commentEx "Ann" "first", commentEx "Ben" "second"]
      (commentEx "Cid" "third") (commentEx "Dou" "fourth")
      { author := some { displayName := some "Eve" }, body := b200 }
      b200 rfl rfl (by decide)⟩

/-- C1 counterexample: running the summary analysis (`quick_summary`) on an
empty ticket list still issues a completion request — `analyze_with_ollama` is
called unconditionally on the empty projection — so the claim that no
completion request is issued is false. -/
theorem C1_counterexample : ¬ (quick_summary_trace []).chatRequests = [] := by
  decide

/-- C1 (amended): on an empty ticket list, `quick_summary` issues exactly one
completion request, whose content is the summary instruction template with
nothing appended (the projection of an empty list is the empty string), and the
ticket-table display informs the user there are no tickets to display. -/
theorem C1_empty_summary :
    (quick_summary_trace []).chatRequests = [summary_prompt]
    ∧ (quick_summary_trace []).tableMessage = some "No tickets to display" := by
  constructor
  · show [prompt_for "summary" ++ prepare_ticket_data_for_analysis []] = [summary_prompt]
    have h1 : prompt_for "summary" = summary_prompt := rfl
    have h2 : prepare_ticket_data_for_analysis [] = "" := rfl
    rw [h1, h2]
    rw [List.cons.injEq]
    exact ⟨String.append_empty summary_prompt, rfl⟩
  · rfl

/-- C9: saving a snapshot and loading it back returns the very same ticket
list, hence an identical ticket count and identical first and last ticket keys. -/
theorem C9_snapshot_roundtrip (tickets : List Ticket) (now : String) :
    load_ticket_data (save_tickets_to_json tickets now) = tickets
    ∧ (load_ticket_data (save_tickets_to_json tickets now)).length = tickets.length
    ∧ (load_ticket_data (save_tickets_to_json tickets now)).head?.map Ticket.key
        = tickets.head?.map Ticket.key
    ∧ (load_ticket_data (save_tickets_to_json tickets now)).getLast?.map Ticket.key
        = tickets.getLast?.map Ticket.key := by
  have h : load_ticket_data (save_tickets_to_json tickets now) = tickets := rfl
  exact ⟨h, by rw [h], by rw [h], by rw [h]⟩
